import Mathlib

/-!
Shallow embedding of the gurgler v2 deployment tool (src/bin/v2.mjs,
src/bin/utils.mjs, src/bin/git.js) and proofs about its specification.

External collaborators (S3, SSM, Lambda, the git CLI, the inquirer prompt
library) are modelled as explicit inputs: listing pages, lookup functions,
operator answers and remote responses are parameters of the embedded
operations, and the operations return the data or effect lists the source
would produce.
-/

namespace Gurgler

/-! ## Small string helpers (utils.mjs and JS string semantics) -/

/-- Embeds `makeHashDigest` from src/bin/utils.mjs: `hash.substring(0, 7)`. -/
def makeHashDigest (hash : String) : String :=
  String.mk (hash.toList.take 7)

/-- Embeds `getContentType` from src/bin/utils.mjs: extension to MIME type,
default `application/octet-stream`. -/
def getContentType (ext : String) : String :=
  if ext = ".css" then "text/css"
  else if ext = ".json" then "application/json"
  else if ext = ".html" then "text/html"
  else if ext = ".js" then "application/javascript"
  else if ext = ".svg" then "image/svg+xml"
  else if ext = ".woff" then "application/font-woff"
  else "application/octet-stream"

/-- JS `String.prototype.padEnd(n)` with spaces, as lodash/JS `padEnd` used in
`addGitInfo`. -/
def padEnd (s : String) (n : Nat) : String :=
  s ++ String.mk (List.replicate (n - s.length) ' ')

/-- Embeds lodash `_.truncate(s, \x7b length: n \x7d)`: the result keeps at most
`n` characters, ending in the omission string "..." when truncation happens. -/
def truncateStr (s : String) (n : Nat) : String :=
  if s.length > n then String.mk (s.toList.take (n - 3)) ++ "..." else s

/-- Embeds `.replace(/(\r\n|\n|\r)/gm, "")`: removes every CR and LF. -/
def removeNewlines (s : String) : String :=
  String.mk (s.toList.filter (fun c => c ≠ '\n' ∧ c ≠ '\r'))

/-- Split a character list at every occurrence of the separator `c`,
yielding the (possibly empty) segments between occurrences — the semantics of
JS `String.prototype.split` with a one-character separator. -/
def splitCharAux (c : Char) : List Char → List (List Char)
  | [] => [[]]
  | x :: xs =>
    match splitCharAux c xs with
    | [] => [[]]
    | g :: gs => if x = c then [] :: g :: gs else (x :: g) :: gs

/-- JS `s.split(c)` for a one-character separator `c`. -/
def splitOnChar (c : Char) (s : String) : List String :=
  (splitCharAux c s.toList).map String.mk

/-- Whether the first list is a prefix of the second (by characters). -/
def isPfxOfChars : List Char → List Char → Bool
  | [], _ => true
  | _ :: _, [] => false
  | x :: xs, y :: ys => x = y && isPfxOfChars xs ys

/-- Lodash `_.startsWith(s, target)`: does `s` start with `target`? -/
def jsStartsWith (s target : String) : Bool :=
  isPfxOfChars target.toList s.toList

/-- The characters before the first occurrence of the pattern `pat` (all of
them when the pattern does not occur) — JS `s.split(pat)[0]`. -/
def takeUntilPattern (pat : List Char) : List Char → List Char
  | [] => []
  | y :: ys =>
    if isPfxOfChars pat (y :: ys) then [] else y :: takeUntilPattern pat ys

/-- Whether the string ends in "/". -/
def hasTrailingSlash (s : String) : Bool :=
  s.toList.getLastD '\x00' = '/'

/-- Node `path.parse(p).base`: the substring after the last "/". -/
def pathBase (p : String) : String :=
  (splitOnChar '/' p).getLastD ""

/-- Node `path.parse(p).ext` computed from the base name: the substring from
the last ".", empty when there is no dot or the only dot starts the name. -/
def extOfBase (base : String) : String :=
  let cs := base.toList
  let afterDot := (cs.reverse.takeWhile (fun c => c ≠ '.')).reverse
  if afterDot.length = cs.length then ""
  else if cs.length - afterDot.length - 1 = 0 then ""
  else String.mk ('.' :: afterDot)

/-- Node `path.join(a, b)` for the simple arguments the tool passes (segments
without ".." or "."): concatenation with a single "/" separator. -/
def pathJoin (a b : String) : String :=
  if a = "" then b
  else if hasTrailingSlash a then a ++ b
  else a ++ "/" ++ b

/-! ## UTF-8 and SHA-256 (Node `crypto.createHash("sha256")` on a string) -/

/-- UTF-8 encoding of one character, as Node encodes strings passed to
`hash.update`. -/
def utf8Char (c : Char) : List Nat :=
  let n := c.toNat
  if n < 0x80 then [n]
  else if n < 0x800 then
    [0xC0 ||| (n >>> 6), 0x80 ||| (n &&& 0x3F)]
  else if n < 0x10000 then
    [0xE0 ||| (n >>> 12), 0x80 ||| ((n >>> 6) &&& 0x3F), 0x80 ||| (n &&& 0x3F)]
  else
    [0xF0 ||| (n >>> 18), 0x80 ||| ((n >>> 12) &&& 0x3F),
     0x80 ||| ((n >>> 6) &&& 0x3F), 0x80 ||| (n &&& 0x3F)]

/-- UTF-8 byte sequence of a string. -/
def utf8Bytes (s : String) : List Nat :=
  (s.data.map utf8Char).flatten

/-- Word size modulus for SHA-256 arithmetic. -/
def pow32 : Nat := 4294967296

/-- Right rotation of a 32-bit word. -/
def rotr32 (n x : Nat) : Nat :=
  ((x >>> n) ||| (x <<< (32 - n))) % pow32

def shaCh (x y z : Nat) : Nat := (x &&& y) ^^^ ((x ^^^ 4294967295) &&& z)

def shaMaj (x y z : Nat) : Nat := (x &&& y) ^^^ (x &&& z) ^^^ (y &&& z)

def bigSigma0 (x : Nat) : Nat := rotr32 2 x ^^^ rotr32 13 x ^^^ rotr32 22 x

def bigSigma1 (x : Nat) : Nat := rotr32 6 x ^^^ rotr32 11 x ^^^ rotr32 25 x

def smallSigma0 (x : Nat) : Nat := rotr32 7 x ^^^ rotr32 18 x ^^^ (x >>> 3)

def smallSigma1 (x : Nat) : Nat := rotr32 17 x ^^^ rotr32 19 x ^^^ (x >>> 10)

/-- SHA-256 round constants (FIPS 180-4, section 4.2.2), in decimal. -/
def k256 : List Nat :=
  [1116352408, 1899447441, 3049323471, 3921009573, 961987163,
   1508970993, 2453635748, 2870763221, 3624381080, 310598401,
   607225278, 1426881987, 1925078388, 2162078206, 2614888103,
   3248222580, 3835390401, 4022224774, 264347078, 604807628,
   770255983, 1249150122, 1555081692, 1996064986, 2554220882,
   2821834349, 2952996808, 3210313671, 3336571891, 3584528711,
   113926993, 338241895, 666307205, 773529912, 1294757372,
   1396182291, 1695183700, 1986661051, 2177026350, 2456956037,
   2730485921, 2820302411, 3259730800, 3345764771, 3516065817,
   3600352804, 4094571909, 275423344, 430227734, 506948616,
   659060556, 883997877, 958139571, 1322822218, 1537002063,
   1747873779, 1955562222, 2024104815, 2227730452, 2361852424,
   2428436474, 2756734187, 3204031479, 3329325298]

/-- SHA-256 initial hash value (FIPS 180-4, section 5.3.3), in decimal. -/
def h256Init : List Nat :=
  [1779033703, 3144134277, 1013904242, 2773480762, 1359893119,
   2600822924, 528734635, 1541459225]

/-- SHA-256 padding: append 0x80, zeros to 56 mod 64, and the 64-bit
big-endian bit length. -/
def shaPad (msg : List Nat) : List Nat :=
  let bitLen := msg.length * 8
  let zeros := (119 - msg.length % 64) % 64
  msg ++ [0x80] ++ List.replicate zeros 0 ++
    ((List.range 8).map (fun i => (bitLen >>> (8 * (7 - i))) % 256))

/-- Read 16 big-endian 32-bit words from a 64-byte block. -/
def blockWords (block : List Nat) : List Nat :=
  (List.range 16).map (fun i =>
    block.getD (4 * i) 0 * 16777216 + block.getD (4 * i + 1) 0 * 65536 +
    block.getD (4 * i + 2) 0 * 256 + block.getD (4 * i + 3) 0)

/-- Extend the 16 message words to the 64-entry message schedule. The list is
kept reversed (head is the newest word) while extending. -/
def extendSchedule (w16 : List Nat) : List Nat :=
  let r := (List.range 48).foldl
    (fun rws _ =>
      let n := (smallSigma1 (rws.getD 1 0) + rws.getD 6 0 +
                smallSigma0 (rws.getD 14 0) + rws.getD 15 0) % pow32
      n :: rws)
    w16.reverse
  r.reverse

/-- One SHA-256 round on the 8-word working state. -/
def shaRound (st : List Nat) (kw : Nat × Nat) : List Nat :=
  match st with
  | [a, b, c, d, e, f, g, h] =>
    let t1 := (h + bigSigma1 e + shaCh e f g + kw.1 + kw.2) % pow32
    let t2 := (bigSigma0 a + shaMaj a b c) % pow32
    [(t1 + t2) % pow32, a, b, c, (d + t1) % pow32, e, f, g]
  | other => other

/-- Compress one 64-byte block into the running hash. -/
def shaCompress (h : List Nat) (block : List Nat) : List Nat :=
  let w := extendSchedule (blockWords block)
  let final := (k256.zip w).foldl shaRound h
  (h.zip final).map (fun p => (p.1 + p.2) % pow32)

/-- SHA-256 digest of a byte sequence, as 32 bytes. -/
def sha256 (msg : List Nat) : List Nat :=
  let padded := shaPad msg
  let blocks := padded.length / 64
  let hFinal := (List.range blocks).foldl
    (fun h i => shaCompress h ((padded.drop (64 * i)).take 64)) h256Init
  hFinal.map (fun wrd =>
    [wrd >>> 24, (wrd >>> 16) % 256, (wrd >>> 8) % 256, wrd % 256]) |>.flatten

def hexDigitChar (n : Nat) : Char :=
  if n < 10 then Char.ofNat (48 + n) else Char.ofNat (87 + n)

def byteToHex (b : Nat) : String :=
  String.mk [hexDigitChar (b / 16), hexDigitChar (b % 16)]

/-- Lowercase hex rendering of a byte sequence, as Node `hash.digest("hex")`. -/
def bytesToHex (bs : List Nat) : String :=
  String.join (bs.map byteToHex)

/-- SHA-256 hex digest of a string, as Node
`createHash("sha256").update(s).digest("hex")`. -/
def sha256Hex (s : String) : String :=
  bytesToHex (sha256 (utf8Bytes s))

/-! ## Data model -/

/-- The local build manifest written by `configureCmd` (src/bin/v2.mjs:547-557).
The source's `prefix` field is called `pfx` here (`prefix` is reserved in
Lean). -/
structure BuildManifest where
  commit : String
  branch : String
  raw : String
  hash : String
  pfx : String
  deriving DecidableEq

/-- One entry of an S3 `ListObjectsV2` response's `Contents`. `LastModified`
is kept as epoch milliseconds (JS `Date.getTime()`). -/
structure S3Object where
  Key : String
  LastModified : Int
  deriving DecidableEq

/-- One page of a paginated S3 listing (`response.Contents`). -/
structure ListPage where
  Contents : List S3Object
  deriving DecidableEq

/-- A deployed-version record as built and progressively enriched by
`getDeployedVersionList`, `filterFilesToFindGurglerDeploys`, `addGitSha` and
`addGitInfo` in src/bin/v2.mjs. Fields the JS adds later start at defaults;
fields the JS may leave `undefined` are `Option`s. -/
structure Version where
  filepath : String := ""
  directoryPath : String := ""
  lastModified : Int := 0
  bucket : String := ""
  hash : String := ""
  hashDigest : String := ""
  gitSha : Option String := none
  gitShaDigest : Option String := none
  gitBranch : Option String := none
  displayName : String := ""
  deriving DecidableEq

/-- An environment as enriched by `requestCurrentlyReleasedVersions`
(src/bin/v2.mjs:89-127): configuration fields plus the release pointer value
(`releasedHash`) read fresh from the parameter store. -/
structure Environment where
  key : String := ""
  ssmKey : String := ""
  serverEnvironment : String := ""
  masterOnly : Bool := false
  slackChannel : Option String := none
  releasedHash : String := ""
  deriving DecidableEq

/-! ## configure (src/bin/v2.mjs:539-567) -/

/-- Embeds `configureCmd`: `raw = commit + "|" + branch`, `hash` is the hex
SHA-256 of `raw`, `prefix = bucketPath + "/" + hash`, and the persisted JSON
manifest carries exactly these five fields. -/
def configureCmd (bucketPath commit branch : String) : BuildManifest :=
  let raw := commit ++ "|" ++ branch
  let hashed := sha256Hex raw
  { commit := commit, branch := branch, raw := raw, hash := hashed,
    pfx := bucketPath ++ "/" ++ hashed }

/-! ## deploy (src/bin/v2.mjs:35-80) -/

/-- One S3 `PutObjectCommand` issued by `readFileAndDeploy`. -/
structure UploadSpec where
  Bucket : String
  Key : String
  ContentType : String
  gitInfo : String
  deriving DecidableEq

/-- The remote-key choice in `readFileAndDeploy` (v2.mjs:48-54): the
`gurgler.json` manifest becomes a sibling of the build prefix
(`pfx + "." + base`); every other file is keyed under it (`join(pfx, base)`). -/
def remoteFilePath (pfx localFilePath : String) : String :=
  let base := pathBase localFilePath
  if base = "gurgler.json" then pfx ++ "." ++ base
  else pathJoin pfx base

/-- Embeds `readFileAndDeploy` (v2.mjs:35-80), non-pretend mode: one
`PutObjectCommand` per bucket with the computed key, the content type derived
from the file extension, and the `git-info` metadata tag. -/
def readFileAndDeploy (bucketNames : List String) (pfx localFilePath gitInfo : String) :
    List UploadSpec :=
  let contentType := getContentType (extOfBase (pathBase localFilePath))
  bucketNames.map (fun bucketName =>
    { Bucket := bucketName, Key := remoteFilePath pfx localFilePath,
      ContentType := contentType, gitInfo := gitInfo })

/-! ## catalog listing (src/bin/v2.mjs:171-333) -/

/-- The manifest filter in `getDeployedVersionList` (v2.mjs:197-200): keep a
key iff its extension is ".json" and the base name's second dot-separated
segment is "gurgler" (in JS, `base.split(".")[1]` is `undefined` when there
is no second segment, and `undefined === "gurgler"` is false). -/
def isGurglerManifestKey (key : String) : Bool :=
  let base := pathBase key
  extOfBase base = ".json" && (splitOnChar '.' base).getD 1 "" = "gurgler"

/-- The record built per kept object (v2.mjs:202-209): `directoryPath` is the
key up to the ".gurgler.json" suffix (JS `Key.split(".gurgler.json")[0]`). -/
def versionOfObject (bucketName : String) (obj : S3Object) : Version :=
  { filepath := obj.Key,
    directoryPath := String.mk (takeUntilPattern ".gurgler.json".toList obj.Key.toList),
    lastModified := obj.LastModified,
    bucket := bucketName }

/-- Embeds `getDeployedVersionList` (v2.mjs:171-210): the loop follows the
continuation token while `IsTruncated`, concatenating every page's
`Contents`; the pages the service produced are the `pages` input. The
concatenation is then filtered to gurgler manifest keys and mapped to
records. -/
def getDeployedVersionList (pages : List ListPage) (bucketName : String) : List Version :=
  let allVersions := (pages.map ListPage.Contents).flatten
  (allVersions.filter (fun v => isGurglerManifestKey v.Key)).map (versionOfObject bucketName)

/-- Embeds `filterFilesToFindGurglerDeploys` (v2.mjs:217-231): re-applies the
manifest-name check and parses `hash` from the base name's segment before the
first dot (`split[0]`). -/
def filterFilesToFindGurglerDeploys (versions : List Version) : List Version :=
  versions.filterMap (fun v =>
    let base := pathBase v.filepath
    let split := splitOnChar '.' base
    if extOfBase base = ".json" && split.getD 1 "" = "gurgler" then
      some { v with hash := split.headD "", hashDigest := makeHashDigest (split.headD "") }
    else none)

/-- Stable ascending sort by `lastModified`, as lodash
`_.sortBy(versions, ["lastModified"])`. -/
def sortByLastModified (versions : List Version) : List Version :=
  versions.mergeSort (fun a b => decide (a.lastModified ≤ b.lastModified))

/-- Embeds `formatAndLimitDeployedVersions` (v2.mjs:265-284): newest first
(`_.reverse(_.sortBy(...))`), first `size` entries, then the same
manifest-name check and hash parse as the metadata pipeline. -/
def formatAndLimitDeployedVersions (versions : List Version) (size : Nat) : List Version :=
  filterFilesToFindGurglerDeploys ((sortByLastModified versions).reverse.take size)

/-- Embeds `addGitSha` (v2.mjs:293-312): reads the object's `git-info`
metadata through a head-object call — modelled as a lookup from object key to
the metadata value, `none` when the header has no such key — and splits it on
"|" into `gitSha` and `gitBranch` (the latter is `undefined`/`none` when the
value has no "|"). -/
def addGitSha (metadataGitInfo : String → Option String) (v : Version) : Version :=
  match metadataGitInfo v.filepath with
  | none => v
  | some meta =>
    if meta = "" then v
    else
      let parsed := splitOnChar '|' meta
      { v with gitSha := some (parsed.headD ""),
               gitShaDigest := some (makeHashDigest (parsed.headD "")),
               gitBranch := parsed.get? 1 }

/-- Metadata of one revision as the four `git` lookups of src/bin/git.js
return it for a known revision. -/
structure GitCommitData where
  author : String
  branch : String
  message : String
  date : String
  deriving DecidableEq

/-- The map built by `getGitInfo` (src/bin/git.js:87-115). -/
structure GitInfo where
  gitSha : String
  author : String
  branch : String
  message : String
  date : String
  deriving DecidableEq

/-- Embeds `getGitInfo` (src/bin/git.js:87-115): the four `git` CLI lookups
are an external collaborator, modelled as one function returning `none` for
an unknown revision. `Promise.allSettled` never rejects; when any lookup was
rejected every field degrades to the placeholder "????", so no error escapes. -/
def getGitInfo (lookup : String → Option GitCommitData) (gitSha : String) : GitInfo :=
  match lookup gitSha with
  | none =>
    { gitSha := gitSha, author := "????", branch := "????",
      message := "????", date := "????" }
  | some d =>
    { gitSha := gitSha, author := d.author, branch := d.branch,
      message := d.message, date := d.date }

/-- Lodash `_.isEmpty` applied to a possibly-undefined string. -/
def isEmptyOptStr (s : Option String) : Bool := s.getD "" = ""

/-- Embeds `addGitInfo` (v2.mjs:314-333): composes `displayName` from the
(possibly degraded) git info, the short build hash and the short revision id.
The JS reads `version.gitSha` directly; an absent field would reach the git
CLI as the string "undefined", which the `getD` mirrors. -/
def addGitInfo (lookup : String → Option GitCommitData) (packageName : String)
    (v : Version) : Version :=
  let gitSha := v.gitSha.getD "undefined"
  let info := getGitInfo lookup gitSha
  let author := padEnd info.author 16
  let commitDateStr := padEnd info.date 16
  let hashShort := makeHashDigest v.hash
  let gitShaShort := makeHashDigest gitSha
  let gitBranch :=
    if isEmptyOptStr v.gitBranch then "" else truncateStr (v.gitBranch.getD "") 15
  let gitMessage := removeNewlines (truncateStr info.message 30)
  { v with displayName :=
      commitDateStr ++ " | " ++ packageName ++ "[" ++ hashShort ++ "] | " ++
      author ++ " | git[" ++ gitShaShort ++ "] | [" ++ gitBranch ++ "] " ++ gitMessage }

/-- Embeds `decorateArtifactsWithGitInfo` (v2.mjs:233-240): enrich every
record, keeping all of them. -/
def decorateArtifactsWithGitInfo (lookup : String → Option GitCommitData)
    (packageName : String) (versions : List Version) : List Version :=
  versions.map (addGitInfo lookup packageName)

/-! ## release selection (src/bin/v2.mjs:335-408) -/

/-- Outcome of the final stage of `determineVersionToRelease`. -/
inductive ReleaseResolution where
  | emptyCatalog
  | identifierTooShort
  | noMatchingArtifact
  | selected (v : Version)
  deriving DecidableEq

/-- Process exit code of each resolution outcome: the empty catalog exits 0
(v2.mjs:369) after printing guidance; the two validation failures exit 1
(v2.mjs:388, 401); a selected version lets the flow continue. -/
def ReleaseResolution.exitCode : ReleaseResolution → Nat
  | .emptyCatalog => 0
  | .identifierTooShort => 1
  | .noMatchingArtifact => 1
  | .selected _ => 0

/-- The guidance printed on an empty catalog (v2.mjs:366-368). -/
def emptyCatalogMessage : String :=
  "\n> There are no currently deployed versions. Run 'gurgler configure <gitCommitSha> <gitBranch>' and `gurgler deploy` and try again.\n"

/-- Embeds the last stage of `determineVersionToRelease` (v2.mjs:364-407) in
its non-interactive mode (`cmdObj.commit` nonempty — an empty commit string
is `_.isEmpty` and takes the interactive prompt branch instead). `versions`
is the list produced by the list/limit/enrich pipeline. The order of checks
follows the source: empty catalog first (exit 0), then the length guard, then
the prefix match on `gitSha` (lodash `_.startsWith` treats an undefined
`gitSha` as the empty string). -/
def determineVersionToRelease (versions : List Version) (commit : String) :
    ReleaseResolution :=
  if versions.length = 0 then .emptyCatalog
  else if commit.length < 7 then .identifierTooShort
  else
    match versions.find? (fun v => jsStartsWith (v.gitSha.getD "") commit) with
    | some v => .selected v
    | none => .noMatchingArtifact

/-- The console line printed by the final stage of `determineVersionToRelease`
for each outcome (v2.mjs:366-368, 385-388, 398-401). -/
def releaseSelectionLog (versions : List Version) (commit : String) : List String :=
  match determineVersionToRelease versions commit with
  | .emptyCatalog => [emptyCatalogMessage]
  | .identifierTooShort =>
    ["The checksum \"" ++ commit ++ "\" is not long enough, it should be at least 7 characters."]
  | .noMatchingArtifact =>
    ["\"" ++ commit ++ "\" does not appear to be a valid checksum."]
  | .selected _ => []

/-! ## confirmation gates (src/bin/v2.mjs:509-537) -/

/-- One inquirer `confirm` question: its message and its configured `default`
value (`none` when the question object has no `default` key). -/
structure PromptSpec where
  message : String
  defaultAnswer : Option Bool
  deriving DecidableEq

/-- The primary confirmation question (v2.mjs:512-517). It carries
`default: false`. JS string interpolation renders an `undefined` field as the
text "undefined". -/
def primaryPrompt (environment : Environment) (version : Version)
    (packageName : String) : PromptSpec :=
  let g := version.gitShaDigest.getD "undefined"
  { message := "Do you want to release " ++ packageName ++ " git[" ++ g ++
      "] hash[" ++ version.hashDigest ++ "] to " ++ environment.key ++ "?",
    defaultAnswer := some false }

/-- The protected-branch warning question (v2.mjs:527-533). Its question
object sets no `default` key. -/
def warningPrompt (environment : Environment) (version : Version) : PromptSpec :=
  let b := version.gitBranch.getD "undefined"
  { message := "Warning: You are attempting to release a non-master branch[" ++ b ++
      "] to a master-only environment[" ++ environment.serverEnvironment ++
      "]. Do you wish to proceed?",
    defaultAnswer := none }

/-- Modelled from the spec: the interactive prompt collaborator (the inquirer
library) is external to src/. A `confirm` question resolves a typed answer to
itself and an empty response (plain enter) to the question's configured
`default`; inquirer's confirm type takes the default to be Yes when the
question sets none. The spec's confirmation gate (section 4.4) fixes the
primary default to "no", matching the explicit `default: false` in the
source. -/
def resolveConfirm (q : PromptSpec) (input : Option Bool) : Bool :=
  input.getD (q.defaultAnswer.getD true)

/-- Embeds `confirmRelease` (v2.mjs:509-537): asks the primary question;
when it is answered Yes, the environment is `masterOnly` and the version's
branch is not "master" (an undefined branch also differs from "master"), asks
the warning question and returns its answer; otherwise returns the primary
answer. Also counts the questions asked. -/
def confirmRelease (environment : Environment) (version : Version)
    (packageName : String) (primaryInput secondaryInput : Option Bool) : Bool × Nat :=
  let answer1 := resolveConfirm (primaryPrompt environment version packageName) primaryInput
  if answer1 && environment.masterOnly && (version.gitBranch != some "master") then
    (resolveConfirm (warningPrompt environment version) secondaryInput, 2)
  else
    (answer1, 1)

/-! ## release activation (src/bin/v2.mjs:410-507, 597-642) -/

/-- An externally visible action of the release tail: the remote activation
call (the lambda that writes the parameter store), a chat notification, or a
console line. -/
inductive Effect where
  | lambdaInvoke (functionName parameterName parameterValue : String)
  | slackNotify (channel text : String)
  | consoleLog (message : String)
  deriving DecidableEq

/-- Whether an effect mutates or messages the outside world (activation call
or notification send), as opposed to local console output. -/
def Effect.isExternalMutation : Effect → Bool
  | .lambdaInvoke _ _ _ => true
  | .slackNotify _ _ => true
  | .consoleLog _ => false

/-- The slack configuration object handed to `releaseCmd`. -/
structure SlackConfig where
  slackWebHookUrl : String := ""
  slackUsername : String := ""
  slackIconEmoji : String := ""
  githubRepoUrl : String := ""
  deriving DecidableEq

/-- The reply of the remote activation lambda. -/
structure LambdaResponse where
  StatusCode : Nat := 200
  FunctionError : Option String := none
  Payload : String := ""
  deriving DecidableEq

/-- Embeds `sendReleaseMessage` (v2.mjs:419-448): a slack notification when a
slack configuration is present, the webhook url is nonempty and the
environment has a nonempty channel; always a console line. -/
def sendReleaseMessage (environment : Environment) (version : Version)
    (packageName : String) (slackConfig : Option SlackConfig) (user : String) :
    List Effect :=
  let gitSha := version.gitSha.getD "undefined"
  let simpleMessage := user ++ " successfully released the version " ++
    packageName ++ "[" ++ gitSha ++ "] to " ++ environment.key
  let slackEffects :=
    match slackConfig with
    | none => []
    | some cfg =>
      let slackMessage := "*" ++ user ++ "* successfully released a new " ++
        packageName ++ " version to *" ++ environment.key ++ "*\n_" ++
        version.displayName ++ "_\n<" ++ cfg.githubRepoUrl ++ "/commit/" ++
        gitSha ++ "|View commit on GitHub>"
      match environment.slackChannel with
      | some channel =>
        if cfg.slackWebHookUrl ≠ "" ∧ channel ≠ "" then
          [Effect.slackNotify channel slackMessage]
        else []
      | none => []
  slackEffects ++ [Effect.consoleLog simpleMessage]

/-- Embeds `release` (v2.mjs:460-507): looks up the activation lambda for the
environment's server class, invokes it with the parameter name and the
version hash, and treats a non-200 status or a function-level error as a
raised error, in which case no success message is sent. Returns the effects
performed and the raised error, if any. (The source's initial `_.has` guard
on `serverEnvironment` cannot fail here: the embedded `Environment` always
carries the field, and configuration validation is out of scope.) -/
def release (environment : Environment) (version : Version)
    (lambdaFunctions : List (String × String)) (packageName : String)
    (slackConfig : Option SlackConfig) (user : String)
    (response : LambdaResponse) : List Effect × Option String :=
  match lambdaFunctions.lookup environment.serverEnvironment with
  | none =>
    ([], some ("the lambda function for the following environment is not set: " ++
      environment.serverEnvironment))
  | some functionName =>
    let inv := Effect.lambdaInvoke functionName environment.ssmKey version.hash
    if response.StatusCode ≠ 200 then
      ([inv], some "unsuccessful lambda invocation; unable to release asset version")
    else
      match response.FunctionError with
      | some _ =>
        ([inv], some ("one or more parameter store values could not be updated: " ++
          response.Payload))
      | none =>
        (inv :: sendReleaseMessage environment version packageName slackConfig user, none)

/-- Embeds the confirmation-gated tail of `releaseCmd` (v2.mjs:623-641):
run `release` when the confirmation is Yes, otherwise only print the
cancellation line. -/
def releaseCmdFinal (environment : Environment) (version : Version)
    (lambdaFunctions : List (String × String)) (packageName : String)
    (slackConfig : Option SlackConfig) (user : String) (response : LambdaResponse)
    (confirmation : Bool) : List Effect × Option String :=
  if confirmation then
    release environment version lambdaFunctions packageName slackConfig user response
  else
    ([Effect.consoleLog "Cancelling release..."], none)

/-- The release pipeline from the confirmation prompts on: resolve the
prompts as `confirmRelease` does, then run the gated tail. -/
def releaseFlow (environment : Environment) (version : Version)
    (lambdaFunctions : List (String × String)) (packageName : String)
    (slackConfig : Option SlackConfig) (user : String) (response : LambdaResponse)
    (primaryInput secondaryInput : Option Bool) : List Effect × Option String :=
  releaseCmdFinal environment version lambdaFunctions packageName slackConfig user response
    (confirmRelease environment version packageName primaryInput secondaryInput).1

/-! ## retention sweep (src/bin/v2.mjs:644-771) -/

/-- Milliseconds in the 90-day retention window (v2.mjs:653). -/
def retentionWindowMs : Int := 1000 * 60 * 60 * 24 * 90

/-- Embeds the candidate-for-deletion computation of `cleanupCmd`
(v2.mjs:692-708): keep the artifacts whose `lastModified` is strictly older
than `now` minus 90 days, then drop every artifact whose hash equals some
environment's currently released hash (the inner loop returns false on the
first matching environment). `releasedVersions` is the pointer set fetched by
`requestCurrentlyReleasedVersions` inside the same sweep invocation. -/
def cleanupCandidates (nowMs : Int) (releasedVersions : List Environment)
    (deployedArtifacts : List Version) : List Version :=
  let ninetyDaysAgo := nowMs - retentionWindowMs
  (deployedArtifacts.filter (fun artifact =>
      decide (artifact.lastModified < ninetyDaysAgo))).filter
    (fun artifact => releasedVersions.all
      (fun releasedVersion => releasedVersion.releasedHash != artifact.hash))

/-! ## Theorems -/

/-- C1: the retention sweep's candidate set contains exactly the artifacts
whose `lastModified` is older than now minus the 90-day retention window and
whose hash equals no environment's currently released hash; in particular an
artifact released by any environment is never a deletion candidate,
regardless of age. -/
theorem cleanupCandidates_exact (nowMs : Int) (releasedVersions : List Environment)
    (deployedArtifacts : List Version) (a : Version) :
    (a ∈ cleanupCandidates nowMs releasedVersions deployedArtifacts ↔
      a ∈ deployedArtifacts ∧ a.lastModified < nowMs - retentionWindowMs ∧
        ∀ e ∈ releasedVersions, e.releasedHash ≠ a.hash) ∧
    (∀ e ∈ releasedVersions, e.releasedHash = a.hash →
      a ∉ cleanupCandidates nowMs releasedVersions deployedArtifacts) := by
  have hmem : a ∈ cleanupCandidates nowMs releasedVersions deployedArtifacts ↔
      a ∈ deployedArtifacts ∧ a.lastModified < nowMs - retentionWindowMs ∧
        ∀ e ∈ releasedVersions, e.releasedHash ≠ a.hash := by
    simp only [cleanupCandidates, List.mem_filter, List.all_eq_true, bne_iff_ne,
      ne_eq, decide_eq_true_eq]
    tauto
  refine ⟨hmem, ?_⟩
  intro e he heq hin
  exact (hmem.mp hin).2.2 e he heq

/-- C1 witness: with one environment currently releasing hash "h1", the
130-day-old artifact with hash "h1" is not a candidate. -/
theorem cleanupCandidates_exact_witness :
    ({ hash := "h1", lastModified := 0 } : Version) ∉
      cleanupCandidates 11232000000000 [{ releasedHash := "h1" }]
        [{ hash := "h1", lastModified := 0 }, { hash := "h2", lastModified := 0 }] :=
  (cleanupCandidates_exact 11232000000000 [{ releasedHash := "h1" }]
      [{ hash := "h1", lastModified := 0 }, { hash := "h2", lastModified := 0 }]
      { hash := "h1", lastModified := 0 }).2
    { releasedHash := "h1" } (by decide) rfl

/-- C2: `configureCmd` deterministically derives `hash` as the hex SHA-256 of
`commit + "|" + branch` and the storage prefix as `basePath + "/" + hash`,
and the manifest carries the commit, branch, raw identity, hash and prefix;
computing it twice yields identical output, and
configure("abc123", "main") on basePath "assets" yields
hash = sha256("abc123|main") with the matching prefix. -/
theorem configureCmd_deterministic_sha256 (c b p : String) :
    (configureCmd p c b).hash = sha256Hex (c ++ "|" ++ b) ∧
    (configureCmd p c b).pfx = p ++ "/" ++ (configureCmd p c b).hash ∧
    (configureCmd p c b).commit = c ∧
    (configureCmd p c b).branch = b ∧
    (configureCmd p c b).raw = c ++ "|" ++ b ∧
    configureCmd p c b = configureCmd p c b ∧
    (configureCmd "assets" "abc123" "main").hash =
      "e61cb2d0f0d7d7103752984ebd19143631320804cb8889137f02a30e807b86dc" ∧
    (configureCmd "assets" "abc123" "main").pfx =
      "assets/e61cb2d0f0d7d7103752984ebd19143631320804cb8889137f02a30e807b86dc" :=
  ⟨rfl, rfl, rfl, rfl, rfl, rfl, by decide, by decide⟩

/-- C3: every uploaded file gets its remote key from the build storage prefix
P — the `gurgler.json` manifest as a sibling (`P + "." + "gurgler.json"`),
any other file under the prefix (`P + "/" + basename`) — and its content type
from the extension, with ".js" mapped to "application/javascript", ".css" to
"text/css", and every unrecognized extension defaulting to
"application/octet-stream". (A configured prefix `basePath + "/" + hash` is
nonempty and has no trailing slash, the stated hypotheses.) -/
theorem readFileAndDeploy_key_layout (buckets : List String) (pfx f gitInfo : String)
    (hp : pfx ≠ "") (hs : hasTrailingSlash pfx = false) :
    (readFileAndDeploy buckets pfx f gitInfo = buckets.map (fun bucketName =>
      { Bucket := bucketName,
        Key := if pathBase f = "gurgler.json" then pfx ++ "." ++ "gurgler.json"
               else pfx ++ "/" ++ pathBase f,
        ContentType := getContentType (extOfBase (pathBase f)),
        gitInfo := gitInfo })) ∧
    getContentType ".js" = "application/javascript" ∧
    getContentType ".css" = "text/css" ∧
    ∀ ext, ext ∉ ([".css", ".json", ".html", ".js", ".svg", ".woff"] : List String) →
      getContentType ext = "application/octet-stream" := by
  refine ⟨?_, rfl, rfl, ?_⟩
  · have hkey : remoteFilePath pfx f =
        if pathBase f = "gurgler.json" then pfx ++ "." ++ "gurgler.json"
        else pfx ++ "/" ++ pathBase f := by
      unfold remoteFilePath pathJoin
      by_cases h : pathBase f = "gurgler.json"
      · simp [h]
      · simp [h, hp, hs]
    simp only [readFileAndDeploy, hkey]
  · intro ext hext
    simp only [List.mem_cons, List.not_mem_nil, or_false, not_or] at hext
    obtain ⟨h1, h2, h3, h4, h5, h6⟩ := hext
    simp [getContentType, h1, h2, h3, h4, h5, h6]

/-- C3 witness: deploying "dist/a.js" to one bucket under the prefix
"assets/h7" uploads to key "assets/h7/a.js" with content type
"application/javascript". -/
theorem readFileAndDeploy_key_layout_witness :
    readFileAndDeploy ["bucket1"] "assets/h7" "dist/a.js" "c|b" =
      [{ Bucket := "bucket1", Key := "assets/h7/a.js",
         ContentType := "application/javascript", gitInfo := "c|b" }] := by
  have h := (readFileAndDeploy_key_layout ["bucket1"] "assets/h7" "dist/a.js" "c|b"
    (by decide) (by decide)).1
  rw [h]
  decide

/-- C4: declining, or accepting the default answer "no", at the primary
release confirmation results in zero remote activation invocations (the
parameter-store write) and zero notification sends, for every environment
and version: the pipeline only prints the cancellation line. -/
theorem declinePrimary_no_external_mutation (environment : Environment) (version : Version)
    (lambdaFunctions : List (String × String)) (packageName : String)
    (slackConfig : Option SlackConfig) (user : String) (response : LambdaResponse)
    (primaryInput secondaryInput : Option Bool)
    (hdecline : primaryInput.getD false = false) :
    releaseFlow environment version lambdaFunctions packageName slackConfig user response
        primaryInput secondaryInput =
      ([Effect.consoleLog "Cancelling release..."], none) ∧
    ∀ e ∈ (releaseFlow environment version lambdaFunctions packageName slackConfig user
        response primaryInput secondaryInput).1, e.isExternalMutation = false := by
  have h1 : resolveConfirm (primaryPrompt environment version packageName) primaryInput
      = false := by
    simpa [resolveConfirm, primaryPrompt] using hdecline
  have h2 : (confirmRelease environment version packageName primaryInput secondaryInput).1
      = false := by
    simp [confirmRelease, h1]
  have heq : releaseFlow environment version lambdaFunctions packageName slackConfig user
      response primaryInput secondaryInput =
      ([Effect.consoleLog "Cancelling release..."], none) := by
    simp [releaseFlow, releaseCmdFinal, h2]
  refine ⟨heq, ?_⟩
  intro e he
  rw [heq] at he
  simp only [List.mem_singleton] at he
  subst he
  rfl

/-- C4 witness: an empty response at the primary prompt (accepting the "no"
default) yields only the cancellation line. -/
theorem declinePrimary_no_external_mutation_witness :
    releaseFlow {} {} [] "pkg" none "user" {} none none =
      ([Effect.consoleLog "Cancelling release..."], none) :=
  (declinePrimary_no_external_mutation {} {} [] "pkg" none "user" {} none none rfl).1

/-- C5 counterexample: with an empty catalog the candidate "ab" (shorter than
7 characters) does not fail with IdentifierTooShort as the claim states — the
flow takes the empty-catalog guidance path first and exits 0. -/
theorem determineVersionToRelease_short_empty_catalog_cex :
    determineVersionToRelease [] "ab" = ReleaseResolution.emptyCatalog ∧
    determineVersionToRelease [] "ab" ≠ ReleaseResolution.identifierTooShort ∧
    ReleaseResolution.exitCode (determineVersionToRelease [] "ab") = 0 :=
  ⟨rfl, by decide, rfl⟩

/-- C5 (amended): when the limited, recency-sorted catalog is nonempty,
non-interactive resolution fails with IdentifierTooShort (exit 1) for every
candidate shorter than 7 characters, and for candidates of length at least 7
it selects a version iff some record's gitSha starts with the candidate,
failing with NoMatchingArtifact (exit 1) otherwise; when the catalog is
empty, the flow instead exits 0 with guidance before any candidate
validation. -/
theorem determineVersionToRelease_nonempty (versions : List Version) (commit : String)
    (hne : versions ≠ []) (_hsupplied : commit ≠ "") :
    (commit.length < 7 →
      determineVersionToRelease versions commit = .identifierTooShort ∧
      ReleaseResolution.exitCode (determineVersionToRelease versions commit) = 1) ∧
    (7 ≤ commit.length →
      ((∃ v, determineVersionToRelease versions commit = .selected v) ↔
        ∃ v ∈ versions, jsStartsWith (v.gitSha.getD "") commit = true) ∧
      (determineVersionToRelease versions commit = .noMatchingArtifact ↔
        ∀ v ∈ versions, jsStartsWith (v.gitSha.getD "") commit = false)) := by
  have hlen : ¬ versions.length = 0 := fun h => hne (List.length_eq_zero.mp h)
  constructor
  · intro h7
    have hres : determineVersionToRelease versions commit = .identifierTooShort := by
      unfold determineVersionToRelease
      rw [if_neg hlen, if_pos h7]
    exact ⟨hres, by rw [hres]; rfl⟩
  · intro h7
    have hnot : ¬ commit.length < 7 := not_lt.mpr h7
    unfold determineVersionToRelease
    rw [if_neg hlen, if_neg hnot]
    cases hfind : versions.find? (fun v => jsStartsWith (v.gitSha.getD "") commit) with
    | none =>
      constructor
      · constructor
        · rintro ⟨v, hv⟩
          cases hv
        · rintro ⟨v, hvmem, hvp⟩
          exact absurd hvp (List.find?_eq_none.mp hfind v hvmem)
      · constructor
        · intro _ v hv
          have := List.find?_eq_none.mp hfind v hv
          simpa using this
        · intro _
          rfl
    | some w =>
      have hwmem : w ∈ versions := List.mem_of_find?_eq_some hfind
      have hwp : jsStartsWith (w.gitSha.getD "") commit = true := by
        have h := List.find?_some hfind
        exact h
      constructor
      · constructor
        · intro _
          exact ⟨w, hwmem, hwp⟩
        · intro _
          exact ⟨w, rfl⟩
      · constructor
        · intro h
          cases h
        · intro hall
          rw [hall w hwmem] at hwp
          exact absurd hwp (by decide)

/-- C5 witness: a 3-character candidate against a nonempty catalog fails with
IdentifierTooShort. -/
theorem determineVersionToRelease_nonempty_witness :
    determineVersionToRelease [{ gitSha := some "abcdef1234" }] "abc" =
      ReleaseResolution.identifierTooShort :=
  ((determineVersionToRelease_nonempty [{ gitSha := some "abcdef1234" }] "abc"
    (by decide) (by decide)).1 (by decide)).1

/-- C6: with the baseline confirmation answered Yes, releasing a version
whose branch is not "master" to a masterOnly environment asks exactly one
additional warning question (2 questions in total), while a "master"-branch
version asks none (1 question); declining either gate leaves the final
confirmation No, in which case the pipeline only prints the cancellation
line; and the warning question is worded differently from the baseline one
(distinct fixed stems). -/
theorem protectedBranch_extra_prompt (environment : Environment) (version : Version)
    (lambdaFunctions : List (String × String)) (packageName : String)
    (slackConfig : Option SlackConfig) (user : String) (response : LambdaResponse)
    (primaryInput secondaryInput : Option Bool)
    (hprimary : resolveConfirm (primaryPrompt environment version packageName) primaryInput
      = true)
    (hmaster : environment.masterOnly = true) :
    (version.gitBranch ≠ some "master" →
      (confirmRelease environment version packageName primaryInput secondaryInput).2 = 2 ∧
      (secondaryInput = some false →
        (confirmRelease environment version packageName primaryInput secondaryInput).1
          = false)) ∧
    (version.gitBranch = some "master" →
      confirmRelease environment version packageName primaryInput secondaryInput
        = (true, 1)) ∧
    ((confirmRelease environment version packageName primaryInput secondaryInput).1 = false →
      releaseFlow environment version lambdaFunctions packageName slackConfig user response
          primaryInput secondaryInput =
        ([Effect.consoleLog "Cancelling release..."], none)) ∧
    jsStartsWith (warningPrompt environment version).message "Warning: " = true ∧
    jsStartsWith (primaryPrompt environment version packageName).message
      "Do you want to release " = true := by
  refine ⟨?_, ?_, ?_, rfl, rfl⟩
  · intro hb
    have hb' : (version.gitBranch != some "master") = true := bne_iff_ne.mpr hb
    constructor
    · simp [confirmRelease, hprimary, hmaster, hb']
    · intro hsec
      subst hsec
      have hw : resolveConfirm (warningPrompt environment version) (some false) = false := rfl
      simp [confirmRelease, hprimary, hmaster, hb', hw]
  · intro hb
    simp [confirmRelease, hprimary, hmaster, hb]
  · intro hfalse
    simp [releaseFlow, releaseCmdFinal, hfalse]

/-- C6 witness: primary answered Yes, branch "dev", masterOnly environment:
two questions are asked. -/
theorem protectedBranch_extra_prompt_witness :
    (confirmRelease { masterOnly := true } { gitBranch := some "dev" } "pkg"
      (some true) (some false)).2 = 2 :=
  ((protectedBranch_extra_prompt { masterOnly := true } { gitBranch := some "dev" }
      [] "pkg" none "user" {} (some true) (some false) rfl rfl).1 (by decide)).1

/-- C7: the manifest listing paginates until exhaustion and its result does
not depend on page boundaries: any two page splits with the same
concatenated contents yield the same records; a record is in the result
exactly when it comes from a listed object matching the manifest naming
convention (".json" extension, "gurgler" as the base name's second
dot-segment); and the metadata pipeline parses each record's buildHash as
the filename segment before the first dot. -/
theorem getDeployedVersionList_page_independent (pages pages2 : List ListPage)
    (bucketName : String) (r : Version) :
    ((pages.map ListPage.Contents).flatten = (pages2.map ListPage.Contents).flatten →
      getDeployedVersionList pages bucketName = getDeployedVersionList pages2 bucketName) ∧
    (r ∈ getDeployedVersionList pages bucketName ↔
      ∃ obj ∈ (pages.map ListPage.Contents).flatten,
        isGurglerManifestKey obj.Key = true ∧ r = versionOfObject bucketName obj) ∧
    ∀ v ∈ filterFilesToFindGurglerDeploys (getDeployedVersionList pages bucketName),
      v.hash = (splitOnChar '.' (pathBase v.filepath)).headD "" := by
  refine ⟨?_, ?_, ?_⟩
  · intro h
    unfold getDeployedVersionList
    rw [h]
  · simp only [getDeployedVersionList]
    constructor
    · intro hr
      rcases List.mem_map.mp hr with ⟨obj, hobj, heq⟩
      rcases List.mem_filter.mp hobj with ⟨hmem, hkey⟩
      exact ⟨obj, hmem, hkey, heq.symm⟩
    · rintro ⟨obj, hmem, hkey, heq⟩
      subst heq
      exact List.mem_map.mpr ⟨obj, List.mem_filter.mpr ⟨hmem, hkey⟩, rfl⟩
  · intro v hv
    rcases List.mem_filterMap.mp hv with ⟨a, ha, hsome⟩
    simp only at hsome
    split at hsome
    · injection hsome with h
      subst h
      rfl
    · cases hsome

/-- C7 witness: the same two objects split across one page or two pages give
the same record list, containing exactly the manifest object. -/
theorem getDeployedVersionList_page_independent_witness :
    getDeployedVersionList
        [{ Contents := [{ Key := "assets/h1.gurgler.json", LastModified := 5 }] },
         { Contents := [{ Key := "assets/h1/app.js", LastModified := 6 }] }] "bucket1" =
      getDeployedVersionList
        [{ Contents := [{ Key := "assets/h1.gurgler.json", LastModified := 5 },
                        { Key := "assets/h1/app.js", LastModified := 6 }] }] "bucket1" :=
  (getDeployedVersionList_page_independent
      [{ Contents := [{ Key := "assets/h1.gurgler.json", LastModified := 5 }] },
       { Contents := [{ Key := "assets/h1/app.js", LastModified := 6 }] }]
      [{ Contents := [{ Key := "assets/h1.gurgler.json", LastModified := 5 },
                      { Key := "assets/h1/app.js", LastModified := 6 }] }]
      "bucket1" {}).1 rfl

/-- C8: an empty catalog terminates the release flow early and normally: the
resolution is the empty-catalog outcome, the printed line is the
configure-and-deploy guidance, and the exit code is 0, never a non-zero
error exit (and, the embedding being total, never a crash). -/
theorem emptyCatalog_normal_exit (versions : List Version) (commit : String)
    (hempty : versions.length = 0) :
    determineVersionToRelease versions commit = .emptyCatalog ∧
    ReleaseResolution.exitCode (determineVersionToRelease versions commit) = 0 ∧
    releaseSelectionLog versions commit = [emptyCatalogMessage] := by
  have hres : determineVersionToRelease versions commit = .emptyCatalog := by
    unfold determineVersionToRelease
    rw [if_pos hempty]
  refine ⟨hres, by rw [hres]; rfl, ?_⟩
  unfold releaseSelectionLog
  rw [hres]

/-- C8 witness: the empty catalog with a concrete candidate resolves to the
empty-catalog outcome with exit code 0 and the guidance line. -/
theorem emptyCatalog_normal_exit_witness :
    determineVersionToRelease [] "abcdef1234" = .emptyCatalog ∧
    ReleaseResolution.exitCode (determineVersionToRelease [] "abcdef1234") = 0 ∧
    releaseSelectionLog [] "abcdef1234" = [emptyCatalogMessage] :=
  emptyCatalog_normal_exit [] "abcdef1234" rfl

/-- A revision-control collaborator that knows no revision: every lookup
fails, as for a rewritten history or a build predating metadata tagging. -/
def noGitLookup : String → Option GitCommitData := fun _ => none

/-- C9 counterexample: for records whose revision lookup fails, the degraded
display label is NOT built from the storage object's last-modified timestamp:
two records differing only in `lastModified` get identical labels, while the
label does change with the revision id — so the label is not a function of
the timestamp and build hash alone, contrary to the claim. -/
theorem addGitInfo_label_ignores_lastModified_cex :
    (addGitInfo noGitLookup "pkg"
        { gitSha := some "deadbeef01", hash := "a1b2c3d4e5",
          lastModified := 100 }).displayName =
      (addGitInfo noGitLookup "pkg"
        { gitSha := some "deadbeef01", hash := "a1b2c3d4e5",
          lastModified := 999999 }).displayName ∧
    (100 : Int) ≠ 999999 ∧
    (addGitInfo noGitLookup "pkg"
        { gitSha := some "aaaa000000", hash := "a1b2c3d4e5",
          lastModified := 100 }).displayName ≠
      (addGitInfo noGitLookup "pkg"
        { gitSha := some "deadbeef01", hash := "a1b2c3d4e5",
          lastModified := 100 }).displayName := by
  decide

/-- C9 (amended): when the revision lookup fails for a record's revisionId,
enrichment does not raise: it produces a degraded display label whose
author, date and message parts are the placeholder "????", alongside the
package name, short build hash, short revision id and branch — not the
last-modified timestamp, on which the label does not depend — and the
catalog/selection flow continues normally with the record (it stays in the
decorated list). -/
theorem addGitInfo_degraded_label (lookup : String → Option GitCommitData)
    (packageName : String) (v : Version) (s : String)
    (hsha : v.gitSha = some s) (hmiss : lookup s = none) :
    (addGitInfo lookup packageName v).displayName =
      padEnd "????" 16 ++ " | " ++ packageName ++ "[" ++ makeHashDigest v.hash ++
      "] | " ++ padEnd "????" 16 ++ " | git[" ++ makeHashDigest s ++ "] | [" ++
      (if isEmptyOptStr v.gitBranch then ""
       else truncateStr (v.gitBranch.getD "") 15) ++ "] " ++ "????" ∧
    (∀ t : Int,
      (addGitInfo lookup packageName { v with lastModified := t }).displayName =
        (addGitInfo lookup packageName v).displayName) ∧
    decorateArtifactsWithGitInfo lookup packageName [v] =
      [addGitInfo lookup packageName v] := by
  have hinfo : getGitInfo lookup s =
      { gitSha := s, author := "????", branch := "????",
        message := "????", date := "????" } := by
    unfold getGitInfo
    rw [hmiss]
  have hm : removeNewlines (truncateStr "????" 30) = "????" := by decide
  refine ⟨?_, fun t => rfl, rfl⟩
  simp only [addGitInfo, hsha, Option.getD_some, hinfo, hm]

/-- C9 witness: a concrete record with a failing lookup gets the degraded
placeholder label. -/
theorem addGitInfo_degraded_label_witness :
    (addGitInfo noGitLookup "pkg"
        { gitSha := some "deadbeef01", hash := "a1b2c3d4e5" }).displayName =
      padEnd "????" 16 ++ " | " ++ "pkg" ++ "[" ++ makeHashDigest "a1b2c3d4e5" ++
      "] | " ++ padEnd "????" 16 ++ " | git[" ++ makeHashDigest "deadbeef01" ++
      "] | [" ++
      (if isEmptyOptStr (none : Option String) then ""
       else truncateStr ((none : Option String).getD "") 15) ++ "] " ++ "????" :=
  (addGitInfo_degraded_label noGitLookup "pkg"
    { gitSha := some "deadbeef01", hash := "a1b2c3d4e5" } "deadbeef01" rfl rfl).1

/-- C10: the protected-branch warning question is configured with no
explicit default while the primary question's default is "no"; under the
prompt library's confirm semantics an empty response at the warning
therefore resolves to Yes, so the release proceeds (final confirmation Yes
after the two questions). -/
theorem warningPrompt_default_yes (environment : Environment) (version : Version)
    (packageName : String)
    (hmaster : environment.masterOnly = true)
    (hbranch : version.gitBranch ≠ some "master") :
    (warningPrompt environment version).defaultAnswer = none ∧
    (primaryPrompt environment version packageName).defaultAnswer = some false ∧
    resolveConfirm (warningPrompt environment version) none = true ∧
    confirmRelease environment version packageName (some true) none = (true, 2) := by
  have hb' : (version.gitBranch != some "master") = true := bne_iff_ne.mpr hbranch
  refine ⟨rfl, rfl, rfl, ?_⟩
  simp [confirmRelease, resolveConfirm, warningPrompt, primaryPrompt, hmaster, hb']

/-- C10 witness: empty response at the warning for a "dev"-branch version and
a masterOnly environment proceeds with confirmation Yes after two
questions. -/
theorem warningPrompt_default_yes_witness :
    confirmRelease { masterOnly := true } { gitBranch := some "dev" } "pkg"
      (some true) none = (true, 2) :=
  (warningPrompt_default_yes { masterOnly := true } { gitBranch := some "dev" }
    "pkg" rfl (by decide)).2.2.2

end Gurgler
